import Mathlib

/-!
# Verification of the hiring-manager scoring core

Shallow embedding of the two pure core functions of the repository
(`validateQuestion` and `calculateScore` from `src/app.ts`, over the types of
`src/types.ts`), together with theorems settling the specification claims
about them.

JavaScript runtime values that can appear as an answer value are embedded as
`JSValue`; JS numbers are modelled as rationals, with `Option ℚ` standing for
"number or NaN" where numeric coercion can fail. Optional question fields are
`Option` fields, and the JS truthiness tests the source relies on
(`!question.correctOption`, `!question.points`, …) are modelled explicitly.
-/

/-- The runtime string values of the `QuestionType` enum in `src/types.ts`. -/
def QuestionType.values : List String :=
  ["single_choice", "multi_choice", "number", "text"]

/-- The `Question` interface of `src/types.ts` (without `id`, which the
validator receives as `Omit<Question, 'id'>` and which scoring never reads).
`type` is a plain string because the runtime value arrives from JSON and the
validator itself checks membership in the enum. Optional interface fields are
`Option`; `points` is declared `number` and embedded as `ℚ`. -/
structure Question where
  text : String
  type : String
  points : ℚ
  options : Option (List String) := none
  correctOption : Option String := none
  correctOptions : Option (List String) := none
  min : Option ℚ := none
  max : Option ℚ := none
  keywords : Option (List String) := none
deriving DecidableEq

/-- JavaScript runtime values that can appear as an `Answer.value`. -/
inductive JSValue where
  | str : String → JSValue
  | num : ℚ → JSValue
  | arr : List JSValue → JSValue
  | null : JSValue
  | undef : JSValue
  | bool : Bool → JSValue

/-- JS truthiness of an optional string: `undefined` and `""` are falsy, so
`!question.correctOption` in the source is true for both. -/
def truthyStr : Option String → Bool
  | none => false
  | some s => s != ""

/-- `String.prototype.trim`: strip whitespace from both ends. (Lean's own
`String.trim` is positionally implemented and does not reduce in the kernel,
so the char-list form is used.) -/
def jsTrim (s : String) : String :=
  String.mk (((s.data.dropWhile Char.isWhitespace).reverse.dropWhile
    Char.isWhitespace).reverse)

/-- The `switch (question.type)` block of `validateQuestion`
(`src/app.ts` lines 36–79): variant-specific errors, in source order; an
unknown type falls through with no errors. -/
def variantErrors (question : Question) : List String :=
  if question.type = "single_choice" then
    (if truthyStr question.correctOption = false then
      ["correctOption is required for single_choice type"] else []) ++
    (if question.options.isSome = true ∧ truthyStr question.correctOption = true ∧
        question.correctOption.getD "" ∉ question.options.getD [] then
      ["correctOption must be in options list"] else [])
  else if question.type = "multi_choice" then
    (if question.correctOptions = none ∨ (question.correctOptions.getD []).length = 0 then
      ["correctOptions is required for multi_choice type"] else []) ++
    (if question.options.isSome = true ∧ question.correctOptions.isSome = true ∧
        0 < ((question.correctOptions.getD []).filter
          (fun opt => decide (opt ∉ question.options.getD []))).length then
      ["All correctOptions must be in options list"] else [])
  else if question.type = "number" then
    (if question.min = none then
      ["min is required for number type"] else []) ++
    (if question.max = none then
      ["max is required for number type"] else []) ++
    (if question.min.isSome = true ∧ question.max.isSome = true ∧
        question.max.getD 0 < question.min.getD 0 then
      ["max must be greater than or equal to min"] else [])
  else if question.type = "text" then
    (if question.keywords = none ∨ (question.keywords.getD []).length = 0 then
      ["keywords are required for text type"] else [])
  else []

/-- `validateQuestion` from `src/app.ts` (lines 21–82): accumulates error
messages in source order (text, type, points, then the variant switch). -/
def validateQuestion (question : Question) : List String :=
  (if question.text = "" ∨ (jsTrim question.text).length = 0 then
    ["Question text is required"] else []) ++
  (if question.type = "" ∨ question.type ∉ QuestionType.values then
    ["Invalid question type"] else []) ++
  (if question.points = 0 ∨ question.points ≤ 0 then
    ["Points must be greater than 0"] else []) ++
  variantErrors question

/-- Decimal-literal part of JS string-to-number conversion: an optional
integer part, an optional dot and fraction part, nothing else
(an empty digit sequence on both sides fails). -/
def parseUnsignedDec (cs : List Char) : Option ℚ :=
  let digitsVal : List Char → ℕ :=
    fun ds => ds.foldl (fun n c => 10 * n + (c.toNat - '0'.toNat)) 0
  match cs.span Char.isDigit with
  | (intPart, []) =>
    if intPart.isEmpty then none else some (digitsVal intPart)
  | (intPart, '.' :: fracPart) =>
    if fracPart.all Char.isDigit && !(intPart.isEmpty && fracPart.isEmpty) then
      some ((digitsVal intPart : ℚ) + (digitsVal fracPart : ℚ) / (10 : ℚ) ^ fracPart.length)
    else none
  | _ => none

/-- JS `Number(string)`: trim whitespace, empty means `0`, otherwise an
optionally signed decimal literal; anything else is NaN (`none`). (Modelled
for decimal literals; exponent/hex/`Infinity` spellings are outside the
fragment this development needs.) -/
def jsParseNumber (s : String) : Option ℚ :=
  match (jsTrim s).data with
  | [] => some 0
  | '+' :: rest => parseUnsignedDec rest
  | '-' :: rest => (parseUnsignedDec rest).map (fun q => -q)
  | cs => parseUnsignedDec cs

/-- JS `Number(value)` coercion, `none` standing for NaN. Arrays convert via
`Array.prototype.join`: the empty array joins to `""` (hence `0`); a
singleton joins to its element's string image (`null`/`undefined` join as
`""`, a boolean joins as `"true"`/`"false"` which is NaN, a nested array
joins as that array would); two or more elements join with a comma, which
never parses as a number. -/
def jsToNumber : JSValue → Option ℚ
  | .num n => some n
  | .str s => jsParseNumber s
  | .null => some 0
  | .bool b => some (if b then 1 else 0)
  | .undef => none
  | .arr [] => some 0
  | .arr [.null] => some 0
  | .arr [.undef] => some 0
  | .arr [.num n] => some n
  | .arr [.str s] => jsParseNumber s
  | .arr [.bool _] => none
  | .arr [.arr l] => jsToNumber (.arr l)
  | .arr (_ :: _ :: _) => none

/-- JS `===` between an arbitrary value and `question.correctOption`
(a string or `undefined`): strict equality is true only on identical strings,
or when both sides are `undefined`. -/
def jsStrictEqOptStr (a : JSValue) (o : Option String) : Bool :=
  match o, a with
  | some s, .str t => t == s
  | none, .undef => true
  | _, _ => false

/-- JS `Set.prototype.has` applied to a string, over the values of an answer
array: true iff some element is exactly that string (`SameValueZero` on a
string never equates it with a non-string). -/
def hasStr (l : List JSValue) (s : String) : Bool :=
  l.any (fun v => match v with | .str t => t == s | _ => false)

/-- `String.prototype.toLowerCase` (ASCII case mapping). -/
def jsToLower (s : String) : String := String.mk (s.data.map Char.toLower)

def listStartsWith : List Char → List Char → Bool
  | _, [] => true
  | [], _ :: _ => false
  | c :: cs, d :: ds => c == d && listStartsWith cs ds

def listOccurs : List Char → List Char → Bool
  | [], needle => listStartsWith [] needle
  | c :: cs, needle => listStartsWith (c :: cs) needle || listOccurs cs needle

/-- `String.prototype.includes`: the needle occurs as a contiguous substring
of the haystack. -/
def jsIncludes (hay needle : String) : Bool := listOccurs hay.data needle.data

/-- The string elements of an answer array (non-strings can never equal a
`correctOptions` entry, so these are the only elements that can intersect the
correct set). -/
def jsStrings (l : List JSValue) : List String :=
  l.filterMap (fun v => match v with | .str s => some s | _ => none)

/-- `calculateScore` from `src/app.ts` (lines 88–130), dispatching on
`question.type`:
* single_choice: `answer === question.correctOption ? points : 0`;
* multi_choice: non-arrays score 0; `correctSet` is
  `new Set(question.correctOptions || [])` (embedded as `dedup`), an empty
  set scores 0, otherwise `points * (intersection / correctSet.size)` where
  `intersection` counts the members of `correctSet` the answer set contains;
* number: `Number(answer)`; NaN scores 0, otherwise `points` iff the value
  lies within `question.min ?? -Infinity` and `question.max ?? Infinity`
  (a missing bound, `none`, is unconstrained);
* text: non-strings score 0; otherwise
  `points * (matchedKeywords / totalKeywords)` with case-insensitive
  substring matching and `question.keywords?.length || 1` as denominator;
* any other type: 0. -/
def calculateScore (question : Question) (answer : JSValue) : ℚ :=
  if question.type = "single_choice" then
    if jsStrictEqOptStr answer question.correctOption = true then question.points else 0
  else if question.type = "multi_choice" then
    match answer with
    | JSValue.arr l =>
      let correctSet := (question.correctOptions.getD []).dedup
      if correctSet.length = 0 then 0
      else
        let intersection := (correctSet.filter (fun s => hasStr l s)).length
        question.points * ((intersection : ℚ) / (correctSet.length : ℚ))
    | _ => 0
  else if question.type = "number" then
    match jsToNumber answer with
    | none => 0
    | some numValue =>
      if (question.min.all fun m => decide (m ≤ numValue)) &&
          (question.max.all fun M => decide (numValue ≤ M)) then
        question.points
      else 0
  else if question.type = "text" then
    match answer with
    | JSValue.str s =>
      let answerLower := jsToLower s
      let matchedKeywords := ((question.keywords.getD []).filter
        (fun keyword => jsIncludes answerLower (jsToLower keyword))).length
      let totalKeywords : ℕ := match question.keywords with
        | some ks => if ks.length = 0 then 1 else ks.length
        | none => 1
      question.points * ((matchedKeywords : ℚ) / (totalKeywords : ℚ))
    | _ => 0
  else 0


section SpecSide

/-- §4.1 of the specification, read literally: "valid" means text non-empty
after trimming, a known type, positive points, and the variant-specific
required-field and cross-field rules, with "present" meaning the field
exists (`isSome`). -/
def specRules (q : Question) : Prop :=
  (jsTrim q.text).length ≠ 0 ∧
  q.type ∈ QuestionType.values ∧
  0 < q.points ∧
  (q.type = "single_choice" →
    (∃ c, q.correctOption = some c) ∧
    (∀ opts ∈ q.options, ∀ c ∈ q.correctOption, c ∈ opts)) ∧
  (q.type = "multi_choice" →
    (∃ cs, q.correctOptions = some cs ∧ cs ≠ []) ∧
    (∀ opts ∈ q.options, ∀ cs ∈ q.correctOptions, ∀ c ∈ cs, c ∈ opts)) ∧
  (q.type = "number" →
    (∃ m, q.min = some m) ∧ (∃ M, q.max = some M) ∧
    (∀ m ∈ q.min, ∀ M ∈ q.max, m ≤ M)) ∧
  (q.type = "text" → ∃ ks, q.keywords = some ks ∧ ks ≠ [])

/-- §4.1 as the code actually enforces it: identical to `specRules` except
that a SingleChoice `correctOption` must be present *and non-empty* (the
source's truthiness test treats a present-but-empty string as missing). -/
def specRulesAmended (q : Question) : Prop :=
  (jsTrim q.text).length ≠ 0 ∧
  q.type ∈ QuestionType.values ∧
  0 < q.points ∧
  (q.type = "single_choice" →
    (∃ c, q.correctOption = some c ∧ c ≠ "") ∧
    (∀ opts ∈ q.options, ∀ c ∈ q.correctOption, c ∈ opts)) ∧
  (q.type = "multi_choice" →
    (∃ cs, q.correctOptions = some cs ∧ cs ≠ []) ∧
    (∀ opts ∈ q.options, ∀ cs ∈ q.correctOptions, ∀ c ∈ cs, c ∈ opts)) ∧
  (q.type = "number" →
    (∃ m, q.min = some m) ∧ (∃ M, q.max = some M) ∧
    (∀ m ∈ q.min, ∀ M ∈ q.max, m ≤ M)) ∧
  (q.type = "text" → ∃ ks, q.keywords = some ks ∧ ks ≠ [])

/-- The spec's inclusive-range test for Number scoring: a missing bound
(`none`, i.e. `min ?? -Infinity` / `max ?? Infinity` in the source) imposes
no constraint. -/
def specInRange (mn mx : Option ℚ) (v : ℚ) : Prop :=
  (∀ m ∈ mn, m ≤ v) ∧ (∀ M ∈ mx, v ≤ M)

/-- The three variant-independent validator messages, in rule order. -/
def generalMessages : List String :=
  ["Question text is required", "Invalid question type",
   "Points must be greater than 0"]

/-- The variant-specific validator messages of §4.1, in their listed order,
keyed on the question type; an unknown type has none. -/
def variantMessages (t : String) : List String :=
  if t = "single_choice" then
    ["correctOption is required for single_choice type",
     "correctOption must be in options list"]
  else if t = "multi_choice" then
    ["correctOptions is required for multi_choice type",
     "All correctOptions must be in options list"]
  else if t = "number" then
    ["min is required for number type", "max is required for number type",
     "max must be greater than or equal to min"]
  else if t = "text" then
    ["keywords are required for text type"]
  else []

end SpecSide

section SampleQuestions

/-- The four questions posted by the repository's test suite. -/
def sampleSingle : Question :=
  ⟨"What is 2+2?", "single_choice", 10, some ["3", "4", "5"], some "4",
   none, none, none, none⟩

def sampleMulti : Question :=
  ⟨"Select all even numbers", "multi_choice", 10, some ["1", "2", "3", "4"],
   none, some ["2", "4"], none, none, none⟩

def sampleNumber : Question :=
  ⟨"Years of experience?", "number", 10, none, none, none, some 0, some 20, none⟩

def sampleText : Question :=
  ⟨"Describe your skills", "text", 10, none, none, none, none, none,
   some ["typescript", "node", "testing"]⟩

/-- A single_choice question that is well-formed except for the missing
`correctOption`. -/
def sampleSingleNoCorrect : Question :=
  ⟨"Pick one", "single_choice", 10, some ["A", "B"], none, none, none, none, none⟩

/-- A number question whose bounds are inverted. -/
def sampleNumberBadRange : Question :=
  ⟨"Enter number", "number", 10, none, none, none, some 5, some 2, none⟩

/-- A single_choice question whose `correctOption` is present but empty. -/
def sampleEmptyCorrect : Question :=
  ⟨"Pick one", "single_choice", 10, some ["A", "B"], some "", none, none, none, none⟩

/-- As `sampleEmptyCorrect` but with no options list, so the literal §4.1
rules are all satisfied. -/
def sampleEmptyCorrectNoOptions : Question :=
  ⟨"Pick one", "single_choice", 10, none, some "", none, none, none, none⟩

/-- A question whose type is not one of the four known variants. -/
def sampleBogusType : Question :=
  ⟨"Q", "bogus", 10, none, none, none, none, none, none⟩

end SampleQuestions

section SanityChecks

example : validateQuestion ⟨"Q", "single_choice", 10, some ["a", "b"], some "a",
    none, none, none, none⟩ = [] := by decide

example : validateQuestion ⟨"  ", "bogus", 0, none, none, none, none, none, none⟩ =
    ["Question text is required", "Invalid question type",
     "Points must be greater than 0"] := by decide

example : calculateScore ⟨"Q", "single_choice", 10, some ["3", "4", "5"], some "4",
    none, none, none, none⟩ (JSValue.str "4") = 10 := by decide

example : calculateScore ⟨"Q", "single_choice", 10, some ["3", "4", "5"], some "4",
    none, none, none, none⟩ (JSValue.str "3") = 0 := by decide

example : calculateScore ⟨"Q", "multi_choice", 10, some ["1", "2", "3", "4"], none,
    some ["2", "4"], none, none, none⟩ (JSValue.arr [JSValue.str "2"]) = 5 := by
  norm_num +decide [calculateScore, hasStr]

example : calculateScore ⟨"Q", "multi_choice", 10, some ["1", "2", "3", "4"], none,
    some ["2", "4"], none, none, none⟩
    (JSValue.arr [JSValue.str "2", JSValue.str "4", JSValue.str "6"]) = 10 := by
  norm_num +decide [calculateScore, hasStr]

example : calculateScore ⟨"Q", "multi_choice", 10, some ["1", "2", "3", "4"], none,
    some ["2", "4"], none, none, none⟩ (JSValue.arr []) = 0 := by
  norm_num +decide [calculateScore, hasStr]

example : calculateScore ⟨"Q", "number", 10, none, none, none, some 0, some 20,
    none⟩ (JSValue.num 20) = 10 := by decide

example : calculateScore ⟨"Q", "number", 10, none, none, none, some 0, some 20,
    none⟩ (JSValue.num 25) = 0 := by decide

example : calculateScore ⟨"Q", "number", 10, none, none, none, some 0, some 20,
    none⟩ (JSValue.str "abc") = 0 := by decide

example : calculateScore ⟨"Q", "text", 10, none, none, none, none, none,
    some ["typescript", "node", "testing"]⟩
    (JSValue.str "I know TYPESCRIPT, NODE, and TESTING") = 10 := by
  norm_num +decide [calculateScore, jsIncludes, jsToLower, listOccurs, listStartsWith]

example : calculateScore ⟨"Q", "text", 10, none, none, none, none, none,
    some ["typescript", "node", "testing"]⟩
    (JSValue.str "I love TypeScript") = 10 / 3 := by
  norm_num +decide [calculateScore, jsIncludes, jsToLower, listOccurs, listStartsWith]

example : calculateScore ⟨"Q", "text", 10, none, none, none, none, none,
    some ["typescript", "node", "testing"]⟩ (JSValue.num 3) = 0 := by decide

end SanityChecks

section ValidatorLemmas

theorem ifSingle_eq_nil {c : Prop} [Decidable c] {x : String} :
    ((if c then [x] else []) = []) ↔ ¬c := by
  split <;> simp_all

theorem not_text_err_iff (s : String) :
    ¬(s = "" ∨ (jsTrim s).length = 0) ↔ (jsTrim s).length ≠ 0 := by
  rw [not_or]
  exact ⟨fun h => h.2, fun h => ⟨by rintro rfl; exact h (by decide), h⟩⟩

theorem not_type_err_iff (t : String) :
    ¬(t = "" ∨ t ∉ QuestionType.values) ↔ t ∈ QuestionType.values := by
  rw [not_or, not_not]
  exact ⟨fun h => h.2, fun h => ⟨by rintro rfl; revert h; decide, h⟩⟩

theorem not_points_err_iff (p : ℚ) : ¬(p = 0 ∨ p ≤ 0) ↔ 0 < p := by
  rw [not_or, not_le]
  exact ⟨fun h => h.2, fun h => ⟨ne_of_gt h, h⟩⟩

/-- The switch block is error-free exactly when the variant rule for the
declared type holds (with the source's truthiness reading of "required"). -/
theorem variantErrors_eq_nil_iff (q : Question) :
    variantErrors q = [] ↔
      (q.type = "single_choice" →
        (∃ c, q.correctOption = some c ∧ c ≠ "") ∧
        (∀ opts ∈ q.options, ∀ c ∈ q.correctOption, c ∈ opts)) ∧
      (q.type = "multi_choice" →
        (∃ cs, q.correctOptions = some cs ∧ cs ≠ []) ∧
        (∀ opts ∈ q.options, ∀ cs ∈ q.correctOptions, ∀ c ∈ cs, c ∈ opts)) ∧
      (q.type = "number" →
        (∃ m, q.min = some m) ∧ (∃ M, q.max = some M) ∧
        (∀ m ∈ q.min, ∀ M ∈ q.max, m ≤ M)) ∧
      (q.type = "text" → ∃ ks, q.keywords = some ks ∧ ks ≠ []) := by
  by_cases h1 : q.type = "single_choice"
  · rcases hco : q.correctOption with _ | c <;>
      rcases hop : q.options with _ | opts <;>
        simp [variantErrors, h1, hco, hop, List.append_eq_nil, ifSingle_eq_nil,
          truthyStr] <;> tauto
  · by_cases h2 : q.type = "multi_choice"
    · rcases hcs : q.correctOptions with _ | cs <;>
        rcases hop : q.options with _ | opts <;>
          simp [variantErrors, h2, h1, hcs, hop, List.append_eq_nil, ifSingle_eq_nil,
            List.length_eq_zero, List.filter_eq_nil_iff, Nat.pos_iff_ne_zero]
    · by_cases h3 : q.type = "number"
      · rcases hmn : q.min with _ | m <;>
          rcases hmx : q.max with _ | M <;>
            simp [variantErrors, h3, h2, h1, hmn, hmx, List.append_eq_nil,
              ifSingle_eq_nil, not_lt]
      · by_cases h4 : q.type = "text"
        · rcases hks : q.keywords with _ | ks <;>
            simp [variantErrors, h4, h3, h2, h1, hks, ifSingle_eq_nil,
              List.length_eq_zero]
        · simp [variantErrors, h4, h3, h2, h1]

/-- The validator accepts exactly the questions satisfying the amended §4.1
rules. -/
theorem validateQuestion_eq_nil_iff (q : Question) :
    validateQuestion q = [] ↔ specRulesAmended q := by
  rw [validateQuestion, specRulesAmended]
  simp only [List.append_eq_nil, ifSingle_eq_nil, not_text_err_iff, not_type_err_iff,
    not_points_err_iff, variantErrors_eq_nil_iff, and_assoc]

end ValidatorLemmas

/-- C2: the validator is NOT equivalent to the literal §4.1 rules: a
single_choice question whose `correctOption` is present but the empty string
satisfies the rules as stated ("correctOption present", no options list to
constrain it) yet the validator reports it as missing. -/
theorem validator_spec_iff_fails :
    ¬(validateQuestion sampleEmptyCorrectNoOptions = [] ↔
      specRules sampleEmptyCorrectNoOptions) := by
  intro h
  have hs : specRules sampleEmptyCorrectNoOptions := by
    refine ⟨by decide, by decide, by decide,
      fun _ => ⟨⟨"", rfl⟩, ?_⟩, fun hty => ?_, fun hty => ?_, fun hty => ?_⟩
    · intro opts hopts
      simp [sampleEmptyCorrectNoOptions] at hopts
    · exact absurd hty (by decide)
    · exact absurd hty (by decide)
    · exact absurd hty (by decide)
  exact absurd (h.mpr hs) (by decide)

/-- C2 (amended): the validator returns no errors exactly when the question
satisfies the §4.1 rules with the one change the source forces: a
single_choice `correctOption` must be present *and non-empty*. -/
theorem validator_iff_specAmended (q : Question) :
    validateQuestion q = [] ↔ specRulesAmended q :=
  validateQuestion_eq_nil_iff q

/-- Closed instance of the amended validator equivalence at the test suite's
single_choice question. -/
theorem validator_iff_specAmended_witness :
    validateQuestion sampleSingle = [] ↔ specRulesAmended sampleSingle :=
  validator_iff_specAmended sampleSingle

theorem ifSingle_sublist {c : Prop} [Decidable c] {x : String} :
    List.Sublist (if c then [x] else []) [x] := by
  split
  · exact List.Sublist.refl _
  · exact List.nil_sublist _

theorem not_mem_ifSingle {c : Prop} [Decidable c] {x y : String} (h : y ≠ x) :
    y ∉ (if c then [x] else []) := by
  split <;> simp [h]

/-- C6: the validator's messages always appear in the fixed §4.1 rule order
(text, type, points, then the variant messages in their listed order), and a
question whose type is not one of the four known variants receives no
variant-specific message at all. -/
theorem validateQuestion_ordered (q : Question) :
    List.Sublist (validateQuestion q) (generalMessages ++ variantMessages q.type) ∧
    (q.type ∉ QuestionType.values →
      List.Sublist (validateQuestion q) generalMessages) := by
  have hvar : List.Sublist (variantErrors q) (variantMessages q.type) := by
    by_cases h1 : q.type = "single_choice"
    · simp only [variantErrors, variantMessages, h1, if_true]
      exact List.Sublist.append ifSingle_sublist ifSingle_sublist
    · by_cases h2 : q.type = "multi_choice"
      · simp only [variantErrors, variantMessages, h1, h2, if_false, if_true]
        exact List.Sublist.append ifSingle_sublist ifSingle_sublist
      · by_cases h3 : q.type = "number"
        · simp only [variantErrors, variantMessages, h1, h2, h3, if_false, if_true]
          exact List.Sublist.append
            (List.Sublist.append ifSingle_sublist ifSingle_sublist) ifSingle_sublist
        · by_cases h4 : q.type = "text"
          · simp only [variantErrors, variantMessages, h1, h2, h3, h4, if_false,
              if_true]
            exact ifSingle_sublist
          · simp only [variantErrors, variantMessages, h1, h2, h3, h4, if_false]
            exact List.Sublist.refl []
  have hmain : List.Sublist (validateQuestion q)
      (generalMessages ++ variantMessages q.type) :=
    List.Sublist.append
      (List.Sublist.append
        (List.Sublist.append ifSingle_sublist ifSingle_sublist) ifSingle_sublist) hvar
  refine ⟨hmain, fun hty => ?_⟩
  have hvm : variantMessages q.type = [] := by
    simp only [QuestionType.values, List.mem_cons, List.mem_singleton, not_or] at hty
    obtain ⟨n1, n2, n3, n4⟩ := hty
    simp [variantMessages, n1, n2, n3, n4]
  rw [hvm, List.append_nil] at hmain
  exact hmain

/-- Closed instance of the ordering theorem, at a question of unknown type,
exercising both conjuncts. -/
theorem validateQuestion_ordered_witness :
    List.Sublist (validateQuestion sampleBogusType)
      (generalMessages ++ variantMessages sampleBogusType.type) ∧
    List.Sublist (validateQuestion sampleBogusType) generalMessages :=
  ⟨(validateQuestion_ordered sampleBogusType).1,
   (validateQuestion_ordered sampleBogusType).2
     (by decide : sampleBogusType.type ∉ QuestionType.values)⟩

/-- C8: an otherwise well-formed single_choice question lacking
`correctOption` yields exactly the one "correctOption is required" error, and
an otherwise well-formed number question with `min=5, max=2` yields exactly
the one "max must be greater than or equal to min" error (in particular no
missing-field errors for `min`/`max`). -/
theorem validator_single_error_cases :
    (∀ q : Question, q.type = "single_choice" → (jsTrim q.text).length ≠ 0 →
      0 < q.points → q.correctOption = none →
      validateQuestion q = ["correctOption is required for single_choice type"]) ∧
    (∀ q : Question, q.type = "number" → (jsTrim q.text).length ≠ 0 →
      0 < q.points → q.min = some 5 → q.max = some 2 →
      validateQuestion q = ["max must be greater than or equal to min"]) := by
  constructor
  · intro q hty htext hpts hco
    have h1 := (not_text_err_iff q.text).mpr htext
    have h2 := (not_type_err_iff q.type).mpr (by rw [hty]; decide)
    have h3 := (not_points_err_iff q.points).mpr hpts
    simp [validateQuestion, variantErrors, hty, hco, truthyStr, h1, h2, h3,
      QuestionType.values]
  · intro q hty htext hpts hmn hmx
    have h1 := (not_text_err_iff q.text).mpr htext
    have h2 := (not_type_err_iff q.type).mpr (by rw [hty]; decide)
    have h3 := (not_points_err_iff q.points).mpr hpts
    have h4 : (2 : ℚ) < 5 := by norm_num
    simp [validateQuestion, variantErrors, hty, hmn, hmx, h1, h2, h3, h4,
      QuestionType.values]

/-- Closed instance of the single-error cases at concrete questions. -/
theorem validator_single_error_cases_witness :
    validateQuestion sampleSingleNoCorrect =
      ["correctOption is required for single_choice type"] ∧
    validateQuestion sampleNumberBadRange =
      ["max must be greater than or equal to min"] :=
  ⟨validator_single_error_cases.1 sampleSingleNoCorrect rfl (by decide) (by decide) rfl,
   validator_single_error_cases.2 sampleNumberBadRange rfl (by decide) (by decide) rfl rfl⟩

/-- C10: a single_choice question whose `correctOption` is the empty string
is reported as *missing* `correctOption` (the truthiness test treats the
present-but-empty value as absent), and the membership check against
`options` is skipped, so the "must be in options list" error can never
accompany it. -/
theorem emptyCorrectOption_reported_missing (q : Question)
    (hty : q.type = "single_choice") (hco : q.correctOption = some "") :
    "correctOption is required for single_choice type" ∈ validateQuestion q ∧
    "correctOption must be in options list" ∉ validateQuestion q := by
  have hv : variantErrors q = ["correctOption is required for single_choice type"] := by
    simp [variantErrors, hty, hco, truthyStr]
  rw [validateQuestion, hv]
  constructor
  · simp [List.mem_append]
  · simp only [List.mem_append, not_or]
    exact ⟨⟨⟨not_mem_ifSingle (by decide), not_mem_ifSingle (by decide)⟩,
      not_mem_ifSingle (by decide)⟩, by decide⟩

/-- Closed instance of the empty-`correctOption` behaviour: the options list
is present and does not contain the empty string, yet only the "required"
error is reported. -/
theorem emptyCorrectOption_reported_missing_witness :
    "correctOption is required for single_choice type" ∈ validateQuestion sampleEmptyCorrect ∧
    "correctOption must be in options list" ∉ validateQuestion sampleEmptyCorrect :=
  emptyCorrectOption_reported_missing sampleEmptyCorrect rfl rfl

section ScoringLemmas

theorem mul_frac_bounds (p : ℚ) (hp : 0 < p) (i n : ℕ) (hin : i ≤ n) (hn : n ≠ 0) :
    0 ≤ p * ((i : ℚ) / (n : ℚ)) ∧ p * ((i : ℚ) / (n : ℚ)) ≤ p := by
  have h0 : (0 : ℚ) < (n : ℚ) := by exact_mod_cast Nat.pos_of_ne_zero hn
  have hfrac1 : (i : ℚ) / (n : ℚ) ≤ 1 := by
    rw [div_le_one h0]; exact_mod_cast hin
  constructor
  · positivity
  · calc p * ((i : ℚ) / (n : ℚ)) ≤ p * 1 :=
        mul_le_mul_of_nonneg_left hfrac1 (le_of_lt hp)
    _ = p := mul_one p

end ScoringLemmas

/-- C1: for every question accepted by the validator and every answer value of
any shape, the score lies between 0 and the question's points. -/
theorem calculateScore_bounds (q : Question) (hq : validateQuestion q = [])
    (a : JSValue) : 0 ≤ calculateScore q a ∧ calculateScore q a ≤ q.points := by
  obtain ⟨htext, htype, hpts, hsingle, hmulti, hnumber, hkw⟩ :=
    (validateQuestion_eq_nil_iff q).mp hq
  simp only [QuestionType.values, List.mem_cons, List.mem_singleton,
    List.not_mem_nil, or_false] at htype
  rcases htype with h | h | h | h
  · rw [calculateScore.eq_def, if_pos h]
    split_ifs
    · exact ⟨hpts.le, le_refl _⟩
    · exact ⟨le_refl 0, hpts.le⟩
  · have hne : q.type ≠ "single_choice" := by rw [h]; decide
    rw [calculateScore.eq_def, if_neg hne, if_pos h]
    cases a with
    | arr l =>
      obtain ⟨⟨cs, hcs, hcsne⟩, _⟩ := hmulti h
      dsimp only
      simp only [hcs, Option.getD_some]
      split_ifs with hlen
      · exact ⟨le_refl 0, hpts.le⟩
      · exact mul_frac_bounds q.points hpts _ _ (List.length_filter_le _ _) hlen
    | str s => exact ⟨le_refl 0, hpts.le⟩
    | num n => exact ⟨le_refl 0, hpts.le⟩
    | null => exact ⟨le_refl 0, hpts.le⟩
    | undef => exact ⟨le_refl 0, hpts.le⟩
    | bool b => exact ⟨le_refl 0, hpts.le⟩
  · have hn1 : q.type ≠ "single_choice" := by rw [h]; decide
    have hn2 : q.type ≠ "multi_choice" := by rw [h]; decide
    rw [calculateScore.eq_def, if_neg hn1, if_neg hn2, if_pos h]
    cases hjn : jsToNumber a with
    | none => exact ⟨le_refl 0, hpts.le⟩
    | some v =>
      dsimp only
      split_ifs
      · exact ⟨hpts.le, le_refl _⟩
      · exact ⟨le_refl 0, hpts.le⟩
  · have hn1 : q.type ≠ "single_choice" := by rw [h]; decide
    have hn2 : q.type ≠ "multi_choice" := by rw [h]; decide
    have hn3 : q.type ≠ "number" := by rw [h]; decide
    rw [calculateScore.eq_def, if_neg hn1, if_neg hn2, if_neg hn3, if_pos h]
    cases a with
    | str s =>
      obtain ⟨ks, hks, hksne⟩ := hkw h
      dsimp only
      simp only [hks, Option.getD_some]
      have hlen : ks.length ≠ 0 := by simpa [List.length_eq_zero] using hksne
      rw [if_neg hlen]
      exact mul_frac_bounds q.points hpts _ _ (List.length_filter_le _ _) hlen
    | arr l => exact ⟨le_refl 0, hpts.le⟩
    | num n => exact ⟨le_refl 0, hpts.le⟩
    | null => exact ⟨le_refl 0, hpts.le⟩
    | undef => exact ⟨le_refl 0, hpts.le⟩
    | bool b => exact ⟨le_refl 0, hpts.le⟩

/-- Closed instance of the score bounds at the test suite's multi_choice
question with a partially correct answer. -/
theorem calculateScore_bounds_witness :
    0 ≤ calculateScore sampleMulti (JSValue.arr [JSValue.str "2"]) ∧
    calculateScore sampleMulti (JSValue.arr [JSValue.str "2"]) ≤ sampleMulti.points :=
  calculateScore_bounds sampleMulti (by decide) (JSValue.arr [JSValue.str "2"])

theorem hasStr_iff_mem_jsStrings (l : List JSValue) (s : String) :
    hasStr l s = true ↔ s ∈ jsStrings l := by
  rw [hasStr, List.any_eq_true, jsStrings]
  constructor
  · rintro ⟨v, hv, hmatch⟩
    refine List.mem_filterMap.mpr ⟨v, hv, ?_⟩
    cases v <;> simp_all
  · intro hmem
    obtain ⟨v, hv, hsome⟩ := List.mem_filterMap.mp hmem
    refine ⟨v, hv, ?_⟩
    cases v <;> simp_all

/-- The source's intersection count (members of the deduplicated
`correctOptions` the answer array contains) equals the cardinality of the
set intersection the spec describes. -/
theorem dedup_filter_length_eq_card (cs : List String) (l : List JSValue) :
    (cs.dedup.filter (fun s => hasStr l s)).length =
      (cs.toFinset ∩ (jsStrings l).toFinset).card := by
  rw [← Finset.filter_mem_eq_inter]
  have h1 : cs.toFinset.filter (· ∈ (jsStrings l).toFinset) =
      (cs.dedup.filter (fun s => hasStr l s)).toFinset := by
    ext x
    simp [List.mem_filter, List.mem_dedup, hasStr_iff_mem_jsStrings]
  rw [h1, List.card_toFinset,
    List.dedup_eq_self.mpr ((List.nodup_dedup cs).filter _)]

theorem dedup_length_zero_iff_toFinset_empty (cs : List String) :
    cs.dedup.length = 0 ↔ cs.toFinset = ∅ := by
  rw [List.length_eq_zero, List.dedup_eq_nil, List.toFinset_eq_empty_iff]

/-- C3: multi_choice scoring: a non-array answer scores 0; otherwise, with
`correctSet` the unique elements of `correctOptions` and `answerSet` the
unique elements of the answer, the score is 0 on an empty `correctSet` and
`points × |correctSet ∩ answerSet| / |correctSet|` otherwise (only string
elements of the answer can meet `correctSet`). -/
theorem multiChoice_score_formula (q : Question) (hq : q.type = "multi_choice") :
    (∀ l : List JSValue,
      calculateScore q (JSValue.arr l) =
        if ((q.correctOptions.getD []).toFinset : Finset String) = ∅ then 0
        else q.points *
          ((((q.correctOptions.getD []).toFinset ∩ (jsStrings l).toFinset).card : ℚ) /
            ((q.correctOptions.getD []).toFinset.card : ℚ))) ∧
    (∀ a : JSValue, (∀ l : List JSValue, a ≠ JSValue.arr l) →
      calculateScore q a = 0) := by
  have hne : q.type ≠ "single_choice" := by rw [hq]; decide
  constructor
  · intro l
    rw [calculateScore.eq_def, if_neg hne, if_pos hq]
    dsimp only
    rw [dedup_filter_length_eq_card]
    by_cases hcs : ((q.correctOptions.getD []).toFinset : Finset String) = ∅
    · rw [if_pos ((dedup_length_zero_iff_toFinset_empty _).mpr hcs), if_pos hcs]
    · rw [if_neg (fun h => hcs ((dedup_length_zero_iff_toFinset_empty _).mp h)),
        if_neg hcs, List.card_toFinset]
  · intro a ha
    rw [calculateScore.eq_def, if_neg hne, if_pos hq]
    cases a with
    | arr l => exact absurd rfl (ha l)
    | str s => rfl
    | num n => rfl
    | null => rfl
    | undef => rfl
    | bool b => rfl

/-- Closed instance of the multi_choice formula at the test suite's question
and a partially correct answer. -/
theorem multiChoice_score_formula_witness :
    calculateScore sampleMulti (JSValue.arr [JSValue.str "2"]) =
      if ((sampleMulti.correctOptions.getD []).toFinset : Finset String) = ∅ then 0
      else sampleMulti.points *
        ((((sampleMulti.correctOptions.getD []).toFinset ∩
            (jsStrings [JSValue.str "2"]).toFinset).card : ℚ) /
          ((sampleMulti.correctOptions.getD []).toFinset.card : ℚ)) :=
  (multiChoice_score_formula sampleMulti rfl).1 [JSValue.str "2"]

/-- C7: appending an answer element that is not one of the correct options
never changes the multi_choice score. -/
theorem multiChoice_extras_irrelevant (q : Question) (hq : q.type = "multi_choice")
    (a : List JSValue) (x : JSValue)
    (hx : ∀ s ∈ q.correctOptions.getD [], x ≠ JSValue.str s) :
    calculateScore q (JSValue.arr (a ++ [x])) = calculateScore q (JSValue.arr a) := by
  have hne : q.type ≠ "single_choice" := by rw [hq]; decide
  rw [calculateScore.eq_def, calculateScore.eq_def, if_neg hne, if_pos hq,
    if_neg hne, if_pos hq]
  dsimp only
  have hfilter : ((q.correctOptions.getD []).dedup.filter
        (fun s => hasStr (a ++ [x]) s)) =
      ((q.correctOptions.getD []).dedup.filter (fun s => hasStr a s)) := by
    apply List.filter_congr
    intro s hs
    have hxs : x ≠ JSValue.str s := hx s (List.mem_dedup.mp hs)
    rw [hasStr, hasStr, List.any_append]
    have hx0 : [x].any
        (fun v => match v with | JSValue.str t => t == s | _ => false) = false := by
      cases x with
      | str t =>
        have ht : t ≠ s := fun h => hxs (by rw [h])
        simp [ht]
      | num n => simp
      | arr l => simp
      | null => simp
      | undef => simp
      | bool b => simp
    rw [hx0, Bool.or_false]
  rw [hfilter]

/-- Closed instance: adding the incorrect option "6" to a multi_choice
answer leaves the score unchanged. -/
theorem multiChoice_extras_irrelevant_witness :
    calculateScore sampleMulti (JSValue.arr ([JSValue.str "2"] ++ [JSValue.str "6"])) =
      calculateScore sampleMulti (JSValue.arr [JSValue.str "2"]) :=
  multiChoice_extras_irrelevant sampleMulti rfl [JSValue.str "2"] (JSValue.str "6")
    (by simp [sampleMulti])

theorem optionAll_iff {α : Type} (o : Option α) (p : α → Prop) [DecidablePred p] :
    (o.all fun x => decide (p x)) = true ↔ ∀ x ∈ o, p x := by
  cases o <;> simp [Option.all]

/-- Shared characterisation of number scoring: NaN coercion scores 0, and a
successful coercion scores `points` or 0 by the inclusive range test. -/
theorem numberScore_cases (q : Question) (hq : q.type = "number") (a : JSValue) :
    (jsToNumber a = none → calculateScore q a = 0) ∧
    (∀ v : ℚ, jsToNumber a = some v →
      (specInRange q.min q.max v → calculateScore q a = q.points) ∧
      (¬specInRange q.min q.max v → calculateScore q a = 0)) := by
  have hn1 : q.type ≠ "single_choice" := by rw [hq]; decide
  have hn2 : q.type ≠ "multi_choice" := by rw [hq]; decide
  constructor
  · intro hnan
    rw [calculateScore.eq_def, if_neg hn1, if_neg hn2, if_pos hq, hnan]
  · intro v hv
    rw [calculateScore.eq_def, if_neg hn1, if_neg hn2, if_pos hq, hv]
    dsimp only
    have hiff : ((q.min.all fun m => decide (m ≤ v)) &&
        (q.max.all fun M => decide (v ≤ M))) = true ↔ specInRange q.min q.max v := by
      rw [Bool.and_eq_true, optionAll_iff, optionAll_iff, specInRange]
    exact ⟨fun hin => if_pos (hiff.mpr hin), fun hout => if_neg (fun hc => hout (hiff.mp hc))⟩

/-- C4: number scoring coerces the answer to a number; a NaN result scores 0,
and otherwise the score is `points` exactly when the value lies in the
inclusive `[min, max]` range, a missing bound being unconstrained
(`-Infinity` / `Infinity`). -/
theorem number_score_formula (q : Question) (hq : q.type = "number") (a : JSValue) :
    (jsToNumber a = none → calculateScore q a = 0) ∧
    (∀ v : ℚ, jsToNumber a = some v →
      (specInRange q.min q.max v → calculateScore q a = q.points) ∧
      (¬specInRange q.min q.max v → calculateScore q a = 0)) :=
  numberScore_cases q hq a

/-- Closed instance of the number formula: `"abc"` coerces to NaN and scores
0; the in-range value 10 earns full points. -/
theorem number_score_formula_witness :
    calculateScore sampleNumber (JSValue.str "abc") = 0 ∧
    calculateScore sampleNumber (JSValue.num 10) = sampleNumber.points :=
  ⟨(number_score_formula sampleNumber rfl (JSValue.str "abc")).1 (by decide),
   ((number_score_formula sampleNumber rfl (JSValue.num 10)).2 10 rfl).1
     (by
       rw [specInRange]
       constructor <;> intro z hz <;> simp [sampleNumber] at hz <;> subst hz <;>
         norm_num)⟩

/-- C9: any answer whose coercion yields a number is scored by range
membership even when it is not itself a number: the empty string, the empty
array and `null` all coerce to 0 and earn full points whenever 0 is in
range; only a NaN coercion scores 0 unconditionally. -/
theorem number_coercion_degenerate (q : Question) (hq : q.type = "number") :
    jsToNumber (JSValue.str "") = some 0 ∧
    jsToNumber (JSValue.arr []) = some 0 ∧
    jsToNumber JSValue.null = some 0 ∧
    (specInRange q.min q.max 0 →
      calculateScore q (JSValue.str "") = q.points ∧
      calculateScore q (JSValue.arr []) = q.points ∧
      calculateScore q JSValue.null = q.points) ∧
    (∀ a : JSValue, jsToNumber a = none → calculateScore q a = 0) ∧
    (∀ a : JSValue, ∀ v : ℚ, jsToNumber a = some v → specInRange q.min q.max v →
      calculateScore q a = q.points) := by
  refine ⟨by decide, rfl, rfl, fun hin => ⟨?_, ?_, ?_⟩, fun a hnan => ?_, fun a v hv hin => ?_⟩
  · exact ((numberScore_cases q hq (JSValue.str "")).2 0 (by decide)).1 hin
  · exact ((numberScore_cases q hq (JSValue.arr [])).2 0 rfl).1 hin
  · exact ((numberScore_cases q hq JSValue.null).2 0 rfl).1 hin
  · exact (numberScore_cases q hq a).1 hnan
  · exact ((numberScore_cases q hq a).2 v hv).1 hin

/-- Closed instance of the degenerate-coercion behaviour at the test suite's
number question (whose range `[0, 20]` contains 0). -/
theorem number_coercion_degenerate_witness :
    jsToNumber (JSValue.str "") = some 0 ∧
    jsToNumber (JSValue.arr []) = some 0 ∧
    jsToNumber JSValue.null = some 0 ∧
    (specInRange sampleNumber.min sampleNumber.max 0 →
      calculateScore sampleNumber (JSValue.str "") = sampleNumber.points ∧
      calculateScore sampleNumber (JSValue.arr []) = sampleNumber.points ∧
      calculateScore sampleNumber JSValue.null = sampleNumber.points) ∧
    (∀ a : JSValue, jsToNumber a = none → calculateScore sampleNumber a = 0) ∧
    (∀ a : JSValue, ∀ v : ℚ, jsToNumber a = some v →
      specInRange sampleNumber.min sampleNumber.max v →
      calculateScore sampleNumber a = sampleNumber.points) :=
  number_coercion_degenerate sampleNumber rfl

/-- C5: text scoring of a string answer is `points × matched / total` where
`matched` counts keywords (duplicates counted each time) whose lower-cased
form occurs in the lower-cased answer, and `total` is the keyword count, or
1 when the keyword list is empty; a non-string answer scores 0. -/
theorem text_score_formula (q : Question) (hq : q.type = "text") :
    (∀ s : String,
      calculateScore q (JSValue.str s) =
        q.points * (((q.keywords.getD []).filter
            (fun k => jsIncludes (jsToLower s) (jsToLower k))).length : ℚ) /
          (((if (q.keywords.getD []).length = 0 then 1
            else (q.keywords.getD []).length) : ℕ) : ℚ)) ∧
    (∀ a : JSValue, (∀ s : String, a ≠ JSValue.str s) → calculateScore q a = 0) := by
  have hn1 : q.type ≠ "single_choice" := by rw [hq]; decide
  have hn2 : q.type ≠ "multi_choice" := by rw [hq]; decide
  have hn3 : q.type ≠ "number" := by rw [hq]; decide
  constructor
  · intro s
    rw [calculateScore.eq_def, if_neg hn1, if_neg hn2, if_neg hn3, if_pos hq]
    dsimp only
    rw [mul_div_assoc]
    congr 2
    cases hks : q.keywords with
    | none => simp
    | some ks => simp
  · intro a ha
    rw [calculateScore.eq_def, if_neg hn1, if_neg hn2, if_neg hn3, if_pos hq]
    cases a with
    | str s => exact absurd rfl (ha s)
    | arr l => rfl
    | num n => rfl
    | null => rfl
    | undef => rfl
    | bool b => rfl

/-- Closed instance of the text formula at the test suite's question with a
one-keyword answer. -/
theorem text_score_formula_witness :
    calculateScore sampleText (JSValue.str "I love TypeScript") =
      sampleText.points * (((sampleText.keywords.getD []).filter
          (fun k => jsIncludes (jsToLower "I love TypeScript") (jsToLower k))).length : ℚ) /
        (((if (sampleText.keywords.getD []).length = 0 then 1
          else (sampleText.keywords.getD []).length) : ℕ) : ℚ) :=
  (text_score_formula sampleText rfl).1 "I love TypeScript"
